import Mathlib

/-!
Verification of the orchestration core and data tools of the HedgeFund
repository, as a shallow embedding of the Python sources.

Sources embedded:
  - Orquestra.py : AgentState, supervisor_router, get_next_step, agent_node,
    final_summary_agent, members, and the workflow wiring;
  - tools.py : VALID_RANGES, VALID_INTERVALS, validate_range,
    validate_interval, handle_brapi_response and the statement-history
    tools (get_income_statements, get_income_statement_history_quarterly,
    get_balance_sheet_history, get_balance_sheet_history_quarterly).

External collaborators (the language model, the HTTP client) are
parameters (oracles) of the embedding, so every theorem quantifies over
all of their possible behaviours.
-/

namespace HedgeFund

/-! ## Orchestrator data model (Orquestra.py) -/

/-- A role-tagged, optionally named message, mirroring the langchain
message objects used in Orquestra.py.  The role is "human" or "system";
the name is the attribution used by the workflow (none for the initial
user message). -/
structure Message where
  role : String
  name : Option String
  content : String
deriving DecidableEq, Repr

/-- The shared workflow state, mirroring the AgentState TypedDict of
Orquestra.py (messages, selected_analysts, current_analyst_idx,
error_count, completed_analyses). -/
structure AgentState where
  messages : List Message
  selected_analysts : List String
  current_analyst_idx : Nat
  error_count : Nat
  completed_analyses : List String
deriving DecidableEq, Repr

/-- The team members list of Orquestra.py. -/
def members : List String :=
  ["fundamental_analyst", "valuation_analyst", "price_analyst"]

/-- The Python str.strip() with no argument: remove leading and trailing
whitespace. -/
def pyStrip (s : String) : String :=
  String.mk (((s.data.dropWhile Char.isWhitespace).reverse.dropWhile Char.isWhitespace).reverse)

/-- The Python str.split(sep) with a one-character separator: split at
every occurrence, never merging and never dropping empty pieces, so the
result is always non-empty (the empty string splits to one empty piece). -/
def splitCharList (sep : Char) : List Char → List (List Char)
  | [] => [[]]
  | c :: cs =>
    if c = sep then [] :: splitCharList sep cs
    else
      match splitCharList sep cs with
      | [] => [[c]]
      | piece :: rest => (c :: piece) :: rest

/-- The Python s.split(sep) over strings, via splitCharList. -/
def pySplit (sep : Char) (s : String) : List String :=
  (splitCharList sep s.data).map String.mk

/-- How supervisor_router turns the classifier reply into the list of
selected analysts: result.content.strip().split(',') with each token
stripped.  This is the exact parsing expression of Orquestra.py line 200. -/
def parse_selected (reply : String) : List String :=
  (pySplit ',' (pyStrip reply)).map pyStrip

/-- supervisor_router of Orquestra.py.  The classifier invocation
(routing_chain.invoke) is the external reasoning engine; its textual
reply is the parameter.  The function stores the parsed analyst list,
resets current_analyst_idx to 0 and appends one routing message; the
unreturned keys (error_count, completed_analyses) keep their values. -/
def supervisor_router (reply : String) (state : AgentState) : AgentState :=
  let selected := parse_selected reply
  { state with
    messages := state.messages ++
      [{ role := "system", name := some "supervisor",
         content := "Routing query to: " ++ String.intercalate ", " selected }]
    selected_analysts := selected
    current_analyst_idx := 0 }

/-- get_next_step of Orquestra.py: empty selection or an exhausted index
routes to final_summary, otherwise the analyst at the current index is
next. -/
def get_next_step (state : AgentState) : String :=
  if state.selected_analysts.isEmpty then "final_summary"
  else if state.selected_analysts.length ≤ state.current_analyst_idx then "final_summary"
  else state.selected_analysts.getD state.current_analyst_idx ""

/-- agent_node of Orquestra.py.  The react agent is the external
reasoning engine; the parameter agent gives the content of the last
message of its invocation on the state.  The node appends exactly one
message attributed to the analyst name and increments the index. -/
def agent_node (agent : AgentState → String) (name : String) (state : AgentState) : AgentState :=
  { state with
    messages := state.messages ++ [{ role := "human", name := some name, content := agent state }]
    current_analyst_idx := state.current_analyst_idx + 1 }

/-- final_summary_agent of Orquestra.py.  The summary chain is the
external reasoning engine; the parameter summarize gives its reply
content.  The node appends one message named portfolio_manager and
leaves the other fields unchanged. -/
def final_summary_agent (summarize : AgentState → String) (state : AgentState) : AgentState :=
  { state with
    messages := state.messages ++
      [{ role := "human", name := some "portfolio_manager", content := summarize state }] }

/-- Outcome of driving the workflow graph. -/
inductive Outcome where
  | finished
  | invalidStep (step : String)
  | stepBudgetExceeded
deriving DecidableEq, Repr

/-- Modelled from the spec: the execution sequencer of section 4.4 and
its hard step ceiling of sections 4.4 and 7 (the graph driver and its
recursion limit live in the third-party framework, not in the
repository sources; the node functions and get_next_step are from
Orquestra.py).  Starting from the state left by the supervisor, each
state-machine transition consumes one unit of the budget: the edge
selected by get_next_step leads to the final summary, to the analyst
node named by get_next_step when that name is one of members (the keys
of the conditional-edge map of Orquestra.py), and otherwise the run
aborts (no matching edge).  An exhausted budget aborts the run with
stepBudgetExceeded before the next node executes.  Returns the list of
states at every transition boundary, the last state reached, and the
outcome. -/
def seqLoop (A : String → AgentState → String) (B : AgentState → String) :
    Nat → AgentState → List AgentState × AgentState × Outcome
  | 0, state => ([state], state, Outcome.stepBudgetExceeded)
  | Nat.succ fuel, state =>
    if get_next_step state = "final_summary" then
      ([state, final_summary_agent B state], final_summary_agent B state, Outcome.finished)
    else if members.contains (get_next_step state) then
      (state ::
        (seqLoop A B fuel (agent_node (A (get_next_step state)) (get_next_step state) state)).1,
       (seqLoop A B fuel (agent_node (A (get_next_step state)) (get_next_step state) state)).2)
    else
      ([state], state, Outcome.invalidStep (get_next_step state))

/-- The initial state of a run: one user message, no selection, index 0,
as in the invocation of Orquestra.py and cli.py. -/
def initState (query : String) : AgentState :=
  { messages := [{ role := "human", name := none, content := query }]
    selected_analysts := []
    current_analyst_idx := 0
    error_count := 0
    completed_analyses := [] }

/-- One whole run of the workflow: the supervisor runs on the initial
state (the entry edge of Orquestra.py), then the sequencer drives the
graph under the step budget.  A is the reasoning engine of the analyst
nodes (by analyst name), B that of the summary node, reply the
classifier reply of the supervisor. -/
def run_workflow (A : String → AgentState → String) (B : AgentState → String)
    (reply query : String) (budget : Nat) :
    List AgentState × AgentState × Outcome :=
  (initState query :: (seqLoop A B budget (supervisor_router reply (initState query))).1,
   (seqLoop A B budget (supervisor_router reply (initState query))).2)

/-- Defined from the words of the spec (section 4.2): the fixed
canonical order fundamental, valuation, price, filtered to the subset
the classifier selected.  This is the spec-side reference for claim C1,
to be compared with what supervisor_router stores. -/
def canonical_selection (emitted : List String) : List String :=
  members.filter (fun m => emitted.contains m)

/-- A fixed analyst oracle used to instantiate run_workflow in closed
statements. -/
def oracleA : String → AgentState → String := fun _ _ => "analyst report"

/-- A fixed synthesis oracle used to instantiate run_workflow in closed
statements. -/
def oracleB : AgentState → String := fun _ => "final summary"

/-! ## Lemmas about the sequencer -/

/-- When get_next_step names a member, the index is within bounds. -/
lemma contains_next_lt (s : AgentState)
    (h : members.contains (get_next_step s) = true) :
    s.current_analyst_idx < s.selected_analysts.length := by
  by_cases h1 : s.selected_analysts.isEmpty
  · rw [get_next_step, if_pos h1] at h
    exact absurd h (by decide)
  · by_cases h2 : s.selected_analysts.length ≤ s.current_analyst_idx
    · rw [get_next_step, if_neg h1, if_pos h2] at h
      exact absurd h (by decide)
    · omega

/-- Unfolding the sequencer at an exhausted budget. -/
lemma seqLoop_zero (A : String → AgentState → String) (B : AgentState → String)
    (s : AgentState) :
    (seqLoop A B 0 s).1 = [s] ∧ (seqLoop A B 0 s).2.1 = s ∧
    (seqLoop A B 0 s).2.2 = Outcome.stepBudgetExceeded :=
  ⟨rfl, rfl, rfl⟩

/-- Unfolding the sequencer on the transition to the final summary. -/
lemma seqLoop_succ_final (A : String → AgentState → String) (B : AgentState → String)
    (n : Nat) (s : AgentState) (h1 : get_next_step s = "final_summary") :
    (seqLoop A B (n + 1) s).1 = [s, final_summary_agent B s] ∧
    (seqLoop A B (n + 1) s).2.1 = final_summary_agent B s ∧
    (seqLoop A B (n + 1) s).2.2 = Outcome.finished := by
  rw [seqLoop, if_pos h1]
  exact ⟨rfl, rfl, rfl⟩

/-- Unfolding the sequencer on a transition to an analyst node. -/
lemma seqLoop_succ_member (A : String → AgentState → String) (B : AgentState → String)
    (n : Nat) (s : AgentState) (h1 : ¬ get_next_step s = "final_summary")
    (h2 : members.contains (get_next_step s) = true) :
    (seqLoop A B (n + 1) s).1
      = s :: (seqLoop A B n (agent_node (A (get_next_step s)) (get_next_step s) s)).1 ∧
    (seqLoop A B (n + 1) s).2.1
      = (seqLoop A B n (agent_node (A (get_next_step s)) (get_next_step s) s)).2.1 ∧
    (seqLoop A B (n + 1) s).2.2
      = (seqLoop A B n (agent_node (A (get_next_step s)) (get_next_step s) s)).2.2 := by
  rw [seqLoop, if_neg h1, if_pos h2]
  exact ⟨rfl, rfl, rfl⟩

/-- Unfolding the sequencer on an edge the conditional-edge map does not
know. -/
lemma seqLoop_succ_invalid (A : String → AgentState → String) (B : AgentState → String)
    (n : Nat) (s : AgentState) (h1 : ¬ get_next_step s = "final_summary")
    (h2 : ¬ members.contains (get_next_step s) = true) :
    (seqLoop A B (n + 1) s).1 = [s] ∧ (seqLoop A B (n + 1) s).2.1 = s ∧
    (seqLoop A B (n + 1) s).2.2 = Outcome.invalidStep (get_next_step s) := by
  rw [seqLoop, if_neg h1, if_neg h2]
  exact ⟨rfl, rfl, rfl⟩

/-- The first trace entry of the sequencer is the state it started from. -/
lemma seqLoop_head (A : String → AgentState → String) (B : AgentState → String) :
    ∀ (fuel : Nat) (s : AgentState), ((seqLoop A B fuel s).1).head? = some s := by
  intro fuel s
  cases fuel with
  | zero => rw [(seqLoop_zero A B s).1]; rfl
  | succ n =>
    by_cases h1 : get_next_step s = "final_summary"
    · rw [(seqLoop_succ_final A B n s h1).1]; rfl
    · by_cases h2 : members.contains (get_next_step s) = true
      · rw [(seqLoop_succ_member A B n s h1 h2).1]; rfl
      · rw [(seqLoop_succ_invalid A B n s h1 h2).1]; rfl

/-- Every trace entry keeps the selection, the completed set and the
error count of the state the sequencer started from (no node of
Orquestra.py writes those keys once routing is done). -/
lemma seqLoop_frame (A : String → AgentState → String) (B : AgentState → String) :
    ∀ (fuel : Nat) (s : AgentState), ∀ t ∈ (seqLoop A B fuel s).1,
      t.selected_analysts = s.selected_analysts ∧
      t.completed_analyses = s.completed_analyses ∧
      t.error_count = s.error_count := by
  intro fuel
  induction fuel with
  | zero =>
    intro s t ht
    rw [(seqLoop_zero A B s).1, List.mem_singleton] at ht
    simp [ht]
  | succ n ih =>
    intro s t ht
    by_cases h1 : get_next_step s = "final_summary"
    · rw [(seqLoop_succ_final A B n s h1).1] at ht
      rcases List.mem_pair.mp ht with ht | ht
      · simp [ht]
      · simp [ht, final_summary_agent]
    · by_cases h2 : members.contains (get_next_step s) = true
      · rw [(seqLoop_succ_member A B n s h1 h2).1, List.mem_cons] at ht
        rcases ht with ht | ht
        · simp [ht]
        · have := ih _ t ht
          simpa [agent_node] using this
      · rw [(seqLoop_succ_invalid A B n s h1 h2).1, List.mem_singleton] at ht
        simp [ht]

/-- The index invariant is preserved at every trace boundary. -/
lemma seqLoop_idx_invariant (A : String → AgentState → String) (B : AgentState → String) :
    ∀ (fuel : Nat) (s : AgentState),
      s.current_analyst_idx ≤ s.selected_analysts.length →
      ∀ t ∈ (seqLoop A B fuel s).1,
        t.current_analyst_idx ≤ t.selected_analysts.length := by
  intro fuel
  induction fuel with
  | zero =>
    intro s hs t ht
    rw [(seqLoop_zero A B s).1, List.mem_singleton] at ht
    simpa [ht] using hs
  | succ n ih =>
    intro s hs t ht
    by_cases h1 : get_next_step s = "final_summary"
    · rw [(seqLoop_succ_final A B n s h1).1] at ht
      rcases List.mem_pair.mp ht with ht | ht
      · simpa [ht] using hs
      · subst ht; simpa [final_summary_agent] using hs
    · by_cases h2 : members.contains (get_next_step s) = true
      · rw [(seqLoop_succ_member A B n s h1 h2).1, List.mem_cons] at ht
        rcases ht with ht | ht
        · simpa [ht] using hs
        · have hlt := contains_next_lt s h2
          exact ih _ (by simp only [agent_node]; omega) t ht
      · rw [(seqLoop_succ_invalid A B n s h1 h2).1, List.mem_singleton] at ht
        simpa [ht] using hs

/-- On a finished run the final state keeps the selection and has
appended one message per executed specialist plus one synthesis
message. -/
lemma seqLoop_finished_stats (A : String → AgentState → String) (B : AgentState → String) :
    ∀ (fuel : Nat) (s : AgentState),
      (seqLoop A B fuel s).2.2 = Outcome.finished →
      (seqLoop A B fuel s).2.1.selected_analysts = s.selected_analysts ∧
      s.current_analyst_idx ≤ (seqLoop A B fuel s).2.1.current_analyst_idx ∧
      (seqLoop A B fuel s).2.1.messages.length
        = s.messages.length
          + ((seqLoop A B fuel s).2.1.current_analyst_idx - s.current_analyst_idx) + 1 := by
  intro fuel
  induction fuel with
  | zero =>
    intro s h
    rw [(seqLoop_zero A B s).2.2] at h
    cases h
  | succ n ih =>
    intro s h
    by_cases h1 : get_next_step s = "final_summary"
    · rw [(seqLoop_succ_final A B n s h1).2.1]
      refine ⟨rfl, le_refl _, ?_⟩
      simp [final_summary_agent]
    · by_cases h2 : members.contains (get_next_step s) = true
      · rw [(seqLoop_succ_member A B n s h1 h2).2.2] at h
        rw [(seqLoop_succ_member A B n s h1 h2).2.1]
        rcases ih (agent_node (A (get_next_step s)) (get_next_step s) s) h
          with ⟨hsel, hle, hlen⟩
        have hXidx : (agent_node (A (get_next_step s)) (get_next_step s) s).current_analyst_idx
            = s.current_analyst_idx + 1 := rfl
        have hXmsg : (agent_node (A (get_next_step s)) (get_next_step s) s).messages.length
            = s.messages.length + 1 := by
          simp [agent_node]
        refine ⟨hsel.trans rfl, ?_, ?_⟩
        · omega
        · omega
      · rw [(seqLoop_succ_invalid A B n s h1 h2).2.2] at h
        cases h

/-- On a finished run in which every selected token is a member, the
final index equals the number of selected analysts. -/
lemma seqLoop_valid_final_idx (A : String → AgentState → String) (B : AgentState → String) :
    ∀ (fuel : Nat) (s : AgentState),
      (∀ t ∈ s.selected_analysts, members.contains t = true) →
      s.current_analyst_idx ≤ s.selected_analysts.length →
      (seqLoop A B fuel s).2.2 = Outcome.finished →
      (seqLoop A B fuel s).2.1.current_analyst_idx = s.selected_analysts.length := by
  intro fuel
  induction fuel with
  | zero =>
    intro s _ _ h
    rw [(seqLoop_zero A B s).2.2] at h
    cases h
  | succ n ih =>
    intro s hv hle h
    by_cases h1 : get_next_step s = "final_summary"
    · rw [(seqLoop_succ_final A B n s h1).2.1]
      simp only [final_summary_agent]
      by_cases hE : s.selected_analysts.isEmpty
      · have : s.selected_analysts.length = 0 := by
          simpa [List.isEmpty_iff_length_eq_zero] using hE
        omega
      · by_cases hL : s.selected_analysts.length ≤ s.current_analyst_idx
        · omega
        · exfalso
          have hstep : get_next_step s
              = s.selected_analysts.getD s.current_analyst_idx "" := by
            rw [get_next_step, if_neg hE, if_neg hL]
          have hmem : s.selected_analysts.getD s.current_analyst_idx ""
              ∈ s.selected_analysts := by
            rw [List.getD_eq_getElem?_getD, List.getElem?_eq_getElem (by omega)]
            exact List.getElem_mem _
          have := hv _ hmem
          rw [← hstep, h1] at this
          exact absurd this (by decide)
    · by_cases h2 : members.contains (get_next_step s) = true
      · rw [(seqLoop_succ_member A B n s h1 h2).2.2] at h
        rw [(seqLoop_succ_member A B n s h1 h2).2.1]
        have hlt := contains_next_lt s h2
        have := ih (agent_node (A (get_next_step s)) (get_next_step s) s)
          (by simpa [agent_node] using hv)
          (by simp only [agent_node]; omega) h
        simpa [agent_node] using this
      · rw [(seqLoop_succ_invalid A B n s h1 h2).2.2] at h
        cases h

/-- The final index never advances past the budget: each specialist
step consumes one unit of fuel. -/
lemma seqLoop_idx_le_fuel (A : String → AgentState → String) (B : AgentState → String) :
    ∀ (fuel : Nat) (s : AgentState),
      (seqLoop A B fuel s).2.1.current_analyst_idx ≤ s.current_analyst_idx + fuel := by
  intro fuel
  induction fuel with
  | zero =>
    intro s
    rw [(seqLoop_zero A B s).2.1]
    exact Nat.le_add_right _ _
  | succ n ih =>
    intro s
    by_cases h1 : get_next_step s = "final_summary"
    · rw [(seqLoop_succ_final A B n s h1).2.1]
      simp only [final_summary_agent]
      omega
    · by_cases h2 : members.contains (get_next_step s) = true
      · rw [(seqLoop_succ_member A B n s h1 h2).2.1]
        have := ih (agent_node (A (get_next_step s)) (get_next_step s) s)
        have hXidx : (agent_node (A (get_next_step s)) (get_next_step s) s).current_analyst_idx
            = s.current_analyst_idx + 1 := rfl
        omega
      · rw [(seqLoop_succ_invalid A B n s h1 h2).2.1]
        omega

/-- The number of boundary states is bounded by the budget plus the two
states that consume none (the start state and the synthesis state). -/
lemma seqLoop_len_le (A : String → AgentState → String) (B : AgentState → String) :
    ∀ (fuel : Nat) (s : AgentState), (seqLoop A B fuel s).1.length ≤ fuel + 2 := by
  intro fuel
  induction fuel with
  | zero =>
    intro s
    rw [(seqLoop_zero A B s).1]
    simp
  | succ n ih =>
    intro s
    by_cases h1 : get_next_step s = "final_summary"
    · rw [(seqLoop_succ_final A B n s h1).1]
      simp
    · by_cases h2 : members.contains (get_next_step s) = true
      · rw [(seqLoop_succ_member A B n s h1 h2).1]
        have := ih (agent_node (A (get_next_step s)) (get_next_step s) s)
        simp only [List.length_cons]
        omega
      · rw [(seqLoop_succ_invalid A B n s h1 h2).1]
        simp

/-- Along the trace, each boundary state extends the messages of the
previous one. -/
lemma seqLoop_chain (A : String → AgentState → String) (B : AgentState → String) :
    ∀ (fuel : Nat) (s : AgentState),
      List.Chain' (fun a b => ∃ rest, b.messages = a.messages ++ rest)
        (seqLoop A B fuel s).1 := by
  intro fuel
  induction fuel with
  | zero =>
    intro s
    rw [(seqLoop_zero A B s).1]
    simp
  | succ n ih =>
    intro s
    by_cases h1 : get_next_step s = "final_summary"
    · rw [(seqLoop_succ_final A B n s h1).1]
      refine List.chain'_cons.mpr ⟨⟨_, rfl⟩, ?_⟩
      simp
    · by_cases h2 : members.contains (get_next_step s) = true
      · rw [(seqLoop_succ_member A B n s h1 h2).1]
        refine List.chain'_cons'.mpr ⟨?_, ih _⟩
        intro b hb
        rw [seqLoop_head] at hb
        cases hb
        exact ⟨_, rfl⟩
      · rw [(seqLoop_succ_invalid A B n s h1 h2).1]
        simp

/-! ## Claims about the orchestrator -/

/-- C1 counterexample: the Supervisor step does not arrange the
selection in the canonical order fundamental, valuation, price — it
stores the classifier output order verbatim — and it does not restrict
the tokens to the fixed set. -/
theorem C1_counterexample :
    (supervisor_router "valuation_analyst,fundamental_analyst" (initState "q")).selected_analysts
        = ["valuation_analyst", "fundamental_analyst"] ∧
    canonical_selection ["valuation_analyst", "fundamental_analyst"]
        = ["fundamental_analyst", "valuation_analyst"] ∧
    (supervisor_router "valuation_analyst,fundamental_analyst" (initState "q")).selected_analysts
        ≠ canonical_selection ["valuation_analyst", "fundamental_analyst"] ∧
    (supervisor_router "sentiment_analyst" (initState "q")).selected_analysts
        = ["sentiment_analyst"] ∧
    members.contains "sentiment_analyst" = false := by
  decide

/-- C1 (amended): for every query and classifier reply, the Supervisor
step stores exactly the comma-split, whitespace-stripped tokens of the
reply, in the order the classifier emitted them, with no validation
against the fixed set and no canonical reordering. -/
theorem C1_supervisor_stores_verbatim :
    ∀ (reply : String) (s : AgentState),
      (supervisor_router reply s).selected_analysts = parse_selected reply := by
  intro reply s
  rfl

/-- C2 counterexample: a run in which the classifier emits the single
token final_summary reaches the terminal state with no fatal error, yet
the final number of messages is 3 while the claimed formula
1 + 1 + len(selected_agents) + 1 gives 4: the bogus token short-circuits
the sequencer to synthesis while selected_analysts has length 1. -/
theorem C2_counterexample :
    (run_workflow oracleA oracleB "final_summary" "q" 3).2.2 = Outcome.finished ∧
    (run_workflow oracleA oracleB "final_summary" "q" 3).2.1.messages.length = 3 ∧
    (run_workflow oracleA oracleB "final_summary" "q" 3).2.1.selected_analysts.length = 1 ∧
    (run_workflow oracleA oracleB "final_summary" "q" 3).2.1.messages.length
        ≠ 1 + 1
          + (run_workflow oracleA oracleB "final_summary" "q" 3).2.1.selected_analysts.length
          + 1 := by
  decide

/-- C2 (amended): for every run that reaches the terminal state without
a fatal error and in which every token the classifier emitted is one of
the three analyst identifiers, the final number of messages equals
1 (user) + 1 (routing) + len(selected_agents) + 1 (synthesis). -/
theorem C2_message_count (A : String → AgentState → String) (B : AgentState → String)
    (reply query : String) (budget : Nat)
    (hvalid : ∀ t ∈ parse_selected reply, members.contains t = true)
    (hfin : (run_workflow A B reply query budget).2.2 = Outcome.finished) :
    (run_workflow A B reply query budget).2.1.messages.length
      = 1 + 1 + (run_workflow A B reply query budget).2.1.selected_analysts.length + 1 := by
  have hsup : (supervisor_router reply (initState query)).selected_analysts
      = parse_selected reply := rfl
  have hstats := seqLoop_finished_stats A B budget
    (supervisor_router reply (initState query)) hfin
  have hidx := seqLoop_valid_final_idx A B budget
    (supervisor_router reply (initState query))
    (by rw [hsup]; exact hvalid)
    (by rw [hsup]; exact Nat.zero_le _) hfin
  rcases hstats with ⟨hsel, _, hlen⟩
  have hmsg : (supervisor_router reply (initState query)).messages.length = 2 := by
    simp [supervisor_router, initState]
  have hidx0 : (supervisor_router reply (initState query)).current_analyst_idx = 0 := rfl
  show (seqLoop A B budget (supervisor_router reply (initState query))).2.1.messages.length
      = 1 + 1
        + (seqLoop A B budget (supervisor_router reply (initState query))).2.1.selected_analysts.length
        + 1
  rw [hsel, hsup]
  rw [hsup] at hidx
  omega

/-- C2 witness run: two valid analysts, budget 5. -/
theorem C2_message_count_witness :
    (run_workflow oracleA oracleB "fundamental_analyst,valuation_analyst" "q" 5).2.1.messages.length
      = 1 + 1
        + (run_workflow oracleA oracleB "fundamental_analyst,valuation_analyst" "q" 5).2.1.selected_analysts.length
        + 1 :=
  C2_message_count oracleA oracleB "fundamental_analyst,valuation_analyst" "q" 5
    (by decide) (by decide)

/-- C3: the messages sequence never shrinks — every step of every run
returns the prior messages extended: the Supervisor, every specialist
node and the Synthesizer each append exactly one message, the
specialist one attributed to its own name, and along the trace of any
run each boundary state has the messages of the previous one as a
prefix. -/
theorem C3_messages_append_only :
    (∀ (reply : String) (s : AgentState),
      (supervisor_router reply s).messages
        = s.messages ++
          [{ role := "system", name := some "supervisor",
             content := "Routing query to: "
               ++ String.intercalate ", " (parse_selected reply) }]) ∧
    (∀ (agent : AgentState → String) (name : String) (s : AgentState),
      (agent_node agent name s).messages
        = s.messages ++ [{ role := "human", name := some name, content := agent s }]) ∧
    (∀ (B : AgentState → String) (s : AgentState),
      (final_summary_agent B s).messages
        = s.messages ++
          [{ role := "human", name := some "portfolio_manager", content := B s }]) ∧
    (∀ (A : String → AgentState → String) (B : AgentState → String)
        (reply query : String) (budget : Nat),
      List.Chain' (fun a b => ∃ rest, b.messages = a.messages ++ rest)
        (run_workflow A B reply query budget).1) := by
  refine ⟨fun reply s => rfl, fun agent name s => rfl, fun B s => rfl, ?_⟩
  intro A B reply query budget
  show List.Chain' _
    (initState query :: (seqLoop A B budget (supervisor_router reply (initState query))).1)
  refine List.chain'_cons'.mpr ⟨?_, seqLoop_chain A B budget _⟩
  intro b hb
  rw [seqLoop_head] at hb
  cases hb
  exact ⟨_, rfl⟩

/-- C4 counterexample: an empty classifier reply does not produce an
empty selection — it produces the one-token sequence containing the
empty string — and an unrecognized token is stored in
selected_analysts rather than dropped. -/
theorem C4_counterexample :
    (supervisor_router "" (initState "q")).selected_analysts = [""] ∧
    (supervisor_router "" (initState "q")).selected_analysts ≠ [] ∧
    (supervisor_router "macro_analyst" (initState "q")).selected_analysts
        = ["macro_analyst"] ∧
    members.contains "macro_analyst" = false := by
  decide

/-- The comma split never produces the empty list of pieces. -/
lemma splitCharList_ne_nil (sep : Char) : ∀ cs : List Char, splitCharList sep cs ≠ [] := by
  intro cs
  induction cs with
  | nil => simp [splitCharList]
  | cons c cs ih =>
    unfold splitCharList
    by_cases hc : c = sep
    · simp [hc]
    · rw [if_neg hc]
      split <;> simp

/-- The parsed selection is never the empty sequence, whatever the
classifier replied. -/
lemma parse_selected_ne_nil (reply : String) : parse_selected reply ≠ [] := by
  intro h
  have hne := splitCharList_ne_nil ',' (pyStrip reply).data
  unfold parse_selected pySplit at h
  rw [List.map_eq_nil_iff, List.map_eq_nil_iff] at h
  exact hne h

/-- Right after the Supervisor step, get_next_step always routes to the
first parsed token, because the parsed selection is never empty and the
index was reset to 0. -/
lemma get_next_step_supervisor (reply query : String) :
    get_next_step (supervisor_router reply (initState query))
      = (parse_selected reply).getD 0 "" := by
  have hne := parse_selected_ne_nil reply
  have hsel : (supervisor_router reply (initState query)).selected_analysts
      = parse_selected reply := rfl
  have hidx : (supervisor_router reply (initState query)).current_analyst_idx = 0 := rfl
  unfold get_next_step
  rw [hsel, hidx]
  rw [if_neg (by simpa [List.isEmpty_iff] using hne)]
  rw [if_neg (by have := List.length_pos.mpr hne; omega)]

/-- C4 (amended): for every classifier reply, all tokens — unrecognized
ones included — are stored verbatim in selected_analysts, never
dropped; the stored selection is never the empty sequence (the empty
reply yields the one-token sequence containing the empty string); and
whenever the first routed token is neither a valid analyst name nor
final_summary the run aborts with an invalid-step routing error on that
token — it does not proceed as no analysts selected. -/
theorem C4_unrecognized_propagated :
    (∀ (reply : String) (s : AgentState),
      (supervisor_router reply s).selected_analysts = parse_selected reply) ∧
    (∀ (reply : String) (s : AgentState),
      (supervisor_router reply s).selected_analysts ≠ []) ∧
    (∀ s : AgentState, (supervisor_router "" s).selected_analysts = [""]) ∧
    (∀ (A : String → AgentState → String) (B : AgentState → String)
        (reply query : String) (budget : Nat),
      members.contains ((parse_selected reply).getD 0 "") = false →
      (parse_selected reply).getD 0 "" ≠ "final_summary" →
      (run_workflow A B reply query (budget + 1)).2.2
        = Outcome.invalidStep ((parse_selected reply).getD 0 "")) := by
  refine ⟨fun reply s => rfl, fun reply s => parse_selected_ne_nil reply,
    fun s => rfl, ?_⟩
  intro A B reply query budget hmem hfs
  have hstep := get_next_step_supervisor reply query
  have h1 : ¬ get_next_step (supervisor_router reply (initState query))
      = "final_summary" := by
    rw [hstep]; exact hfs
  have h2 : ¬ members.contains (get_next_step (supervisor_router reply (initState query)))
      = true := by
    rw [hstep, hmem]; simp
  show (seqLoop A B (budget + 1) (supervisor_router reply (initState query))).2.2 = _
  rw [(seqLoop_succ_invalid A B budget _ h1 h2).2.2, hstep]

/-- C4 witness runs: the empty reply and an unknown analyst name both
abort the run with the invalid-step outcome on the stored token. -/
theorem C4_witness :
    (run_workflow oracleA oracleB "" "q" 5).2.2 = Outcome.invalidStep "" ∧
    (run_workflow oracleA oracleB "macro_analyst" "q" 5).2.2
      = Outcome.invalidStep "macro_analyst" := by
  constructor
  · have h := C4_unrecognized_propagated.2.2.2 oracleA oracleB "" "q" 4
      (by decide) (by decide)
    rw [show (parse_selected "").getD 0 "" = "" from rfl] at h
    exact h
  · have h := C4_unrecognized_propagated.2.2.2 oracleA oracleB "macro_analyst" "q" 4
      (by decide) (by decide)
    rw [show (parse_selected "macro_analyst").getD 0 "" = "macro_analyst" from rfl] at h
    exact h

/-- C5 counterexample: a run completing with the single classifier
token final_summary ends with cursor 0 while selected_analysts has
length 1, so the cursor does not end equal to len(selected_agents). -/
theorem C5_counterexample :
    (run_workflow oracleA oracleB "final_summary" "query" 3).2.2 = Outcome.finished ∧
    (run_workflow oracleA oracleB "final_summary" "query" 3).2.1.current_analyst_idx = 0 ∧
    (run_workflow oracleA oracleB "final_summary" "query" 3).2.1.selected_analysts.length = 1 ∧
    (run_workflow oracleA oracleB "final_summary" "query" 3).2.1.current_analyst_idx
        ≠ (run_workflow oracleA oracleB "final_summary" "query" 3).2.1.selected_analysts.length := by
  decide

/-- C5 (amended): the Supervisor step sets the cursor to 0, each
specialist step increases it by exactly 1 and no other step changes it,
0 <= cursor <= len(selected_agents) holds at every boundary state of
every run, and the cursor ends equal to len(selected_agents) on every
completed run in which every classifier token was a valid analyst
identifier. -/
theorem C5_cursor :
    (∀ (r : String) (s : AgentState), (supervisor_router r s).current_analyst_idx = 0) ∧
    (∀ (agent : AgentState → String) (name : String) (s : AgentState),
      (agent_node agent name s).current_analyst_idx = s.current_analyst_idx + 1) ∧
    (∀ (C : AgentState → String) (s : AgentState),
      (final_summary_agent C s).current_analyst_idx = s.current_analyst_idx) ∧
    (∀ (A : String → AgentState → String) (B : AgentState → String)
        (reply query : String) (budget : Nat),
      (run_workflow A B reply query budget).1.all
        (fun t => decide (t.current_analyst_idx ≤ t.selected_analysts.length)) = true) ∧
    (∀ (A : String → AgentState → String) (B : AgentState → String)
        (reply query : String) (budget : Nat),
      (∀ t ∈ parse_selected reply, members.contains t = true) →
      (run_workflow A B reply query budget).2.2 = Outcome.finished →
      (run_workflow A B reply query budget).2.1.current_analyst_idx
        = (run_workflow A B reply query budget).2.1.selected_analysts.length) := by
  refine ⟨fun r s => rfl, fun agent name s => rfl, fun C s => rfl, ?_, ?_⟩
  · intro A B reply query budget
    rw [List.all_eq_true]
    intro t ht
    rw [decide_eq_true_iff]
    show t.current_analyst_idx ≤ t.selected_analysts.length
    rcases List.mem_cons.mp ht with ht | ht
    · subst ht; exact Nat.zero_le _
    · exact seqLoop_idx_invariant A B budget
        (supervisor_router reply (initState query)) (Nat.zero_le _) t ht
  · intro A B reply query budget hvalid hfin
    have hsup : (supervisor_router reply (initState query)).selected_analysts
        = parse_selected reply := rfl
    have hidx := seqLoop_valid_final_idx A B budget
      (supervisor_router reply (initState query))
      (by rw [hsup]; exact hvalid) (Nat.zero_le _) hfin
    have hsel := (seqLoop_finished_stats A B budget
      (supervisor_router reply (initState query)) hfin).1
    show (seqLoop A B budget (supervisor_router reply (initState query))).2.1.current_analyst_idx
        = (seqLoop A B budget (supervisor_router reply (initState query))).2.1.selected_analysts.length
    rw [hsel]
    exact hidx

/-- C5 witness run: one valid analyst, budget 5, exercising the
completed-run equality with its hypotheses discharged. -/
theorem C5_cursor_witness :
    (run_workflow oracleA oracleB "price_analyst" "q" 5).2.1.current_analyst_idx
      = (run_workflow oracleA oracleB "price_analyst" "q" 5).2.1.selected_analysts.length :=
  C5_cursor.2.2.2.2 oracleA oracleB "price_analyst" "q" 5 (by decide) (by decide)

/-- C6 counterexample: a completed run in which price_analyst produced
its report (its attributed message is in the final messages), yet
price_analyst is not a member of the completed set, which is still
empty. -/
theorem C6_counterexample :
    (run_workflow oracleA oracleB "price_analyst" "query" 5).2.2 = Outcome.finished ∧
    ((run_workflow oracleA oracleB "price_analyst" "query" 5).2.1.messages.map
        (fun m => m.name))
      = [none, some "supervisor", some "price_analyst", some "portfolio_manager"] ∧
    (run_workflow oracleA oracleB "price_analyst" "query" 5).2.1.completed_analyses = [] ∧
    ¬ "price_analyst"
        ∈ (run_workflow oracleA oracleB "price_analyst" "query" 5).2.1.completed_analyses := by
  decide

/-- C6 (amended): no step of the workflow ever writes the completed
set: the Supervisor, the specialist nodes and the Synthesizer all leave
completed_analyses unchanged, so it stays empty at every boundary state
of every run — a specialist that has produced its report is never
recorded in it. -/
theorem C6_completed_never_written :
    (∀ (reply : String) (s : AgentState),
      (supervisor_router reply s).completed_analyses = s.completed_analyses) ∧
    (∀ (agent : AgentState → String) (name : String) (s : AgentState),
      (agent_node agent name s).completed_analyses = s.completed_analyses) ∧
    (∀ (B : AgentState → String) (s : AgentState),
      (final_summary_agent B s).completed_analyses = s.completed_analyses) ∧
    (∀ (A : String → AgentState → String) (B : AgentState → String)
        (reply query : String) (budget : Nat),
      (run_workflow A B reply query budget).1.all
        (fun t => t.completed_analyses.isEmpty) = true) := by
  refine ⟨fun reply s => rfl, fun agent name s => rfl, fun B s => rfl, ?_⟩
  intro A B reply query budget
  rw [List.all_eq_true]
  intro t ht
  rcases List.mem_cons.mp ht with ht | ht
  · subst ht; rfl
  · have := (seqLoop_frame A B budget (supervisor_router reply (initState query)) t ht).2.1
    rw [List.isEmpty_iff]
    rw [this]
    rfl

/-- C7: get_next_step routes to the synthesis step whenever the
selection is empty or the cursor has reached len(selected_agents), and
from such a state the sequencer finishes by appending exactly the
synthesis message, running no specialist. -/
theorem C7_empty_or_done_routes_to_synthesis :
    (∀ s : AgentState, s.selected_analysts = [] → get_next_step s = "final_summary") ∧
    (∀ s : AgentState, s.selected_analysts.length ≤ s.current_analyst_idx →
      get_next_step s = "final_summary") ∧
    (∀ (A : String → AgentState → String) (B : AgentState → String)
        (budget : Nat) (s : AgentState), s.selected_analysts = [] →
      (seqLoop A B (budget + 1) s).2.2 = Outcome.finished ∧
      (seqLoop A B (budget + 1) s).2.1.messages
        = s.messages ++
          [{ role := "human", name := some "portfolio_manager", content := B s }]) ∧
    (∀ (A : String → AgentState → String) (B : AgentState → String)
        (budget : Nat) (s : AgentState),
      s.selected_analysts.length ≤ s.current_analyst_idx →
      (seqLoop A B (budget + 1) s).2.2 = Outcome.finished) := by
  have hroute1 : ∀ s : AgentState, s.selected_analysts = [] →
      get_next_step s = "final_summary" := by
    intro s hs
    rw [get_next_step, if_pos (by rw [hs]; rfl)]
  have hroute2 : ∀ s : AgentState, s.selected_analysts.length ≤ s.current_analyst_idx →
      get_next_step s = "final_summary" := by
    intro s hs
    by_cases hE : s.selected_analysts.isEmpty
    · rw [get_next_step, if_pos hE]
    · rw [get_next_step, if_neg hE, if_pos hs]
  refine ⟨hroute1, hroute2, ?_, ?_⟩
  · intro A B budget s hs
    have h := seqLoop_succ_final A B budget s (hroute1 s hs)
    exact ⟨h.2.2, by rw [h.2.1]; rfl⟩
  · intro A B budget s hs
    exact (seqLoop_succ_final A B budget s (hroute2 s hs)).2.2

/-- C7 witness: a state with empty selection and a state with exhausted
cursor both route to the final summary, and the sequencer finishes from
the empty-selection state. -/
theorem C7_witness :
    get_next_step (initState "which stocks") = "final_summary" ∧
    get_next_step { initState "q2" with
      selected_analysts := ["price_analyst"], current_analyst_idx := 1 } = "final_summary" ∧
    (seqLoop oracleA oracleB 1 (initState "which stocks")).2.2 = Outcome.finished :=
  ⟨C7_empty_or_done_routes_to_synthesis.1 _ rfl,
   C7_empty_or_done_routes_to_synthesis.2.1 _ (by decide),
   (C7_empty_or_done_routes_to_synthesis.2.2.1 oracleA oracleB 0 _ rfl).1⟩

/-- C8: spec-modelled step budget — every run executes at most budget
specialist steps and visits at most budget + 3 boundary states; the
concrete scenario with budget 1 and two selected specialists aborts
with the resource-exhaustion outcome after the first specialist ran and
before the second executed (the final messages carry only the user, the
routing and the first specialist entries), while the same run with
budget 3 finishes. -/
theorem C8_step_budget :
    (∀ (A : String → AgentState → String) (B : AgentState → String)
        (reply query : String) (budget : Nat),
      (run_workflow A B reply query budget).2.1.current_analyst_idx ≤ budget) ∧
    (∀ (A : String → AgentState → String) (B : AgentState → String)
        (reply query : String) (budget : Nat),
      (run_workflow A B reply query budget).1.length ≤ budget + 3) ∧
    (run_workflow oracleA oracleB "fundamental_analyst,price_analyst" "q" 1).2.2
        = Outcome.stepBudgetExceeded ∧
    ((run_workflow oracleA oracleB "fundamental_analyst,price_analyst" "q" 1).2.1.messages.map
        (fun m => m.name)) = [none, some "supervisor", some "fundamental_analyst"] ∧
    (run_workflow oracleA oracleB "fundamental_analyst,price_analyst" "q" 3).2.2
        = Outcome.finished := by
  refine ⟨?_, ?_, by decide, by decide, by decide⟩
  · intro A B reply query budget
    have := seqLoop_idx_le_fuel A B budget (supervisor_router reply (initState query))
    have h0 : (supervisor_router reply (initState query)).current_analyst_idx = 0 := rfl
    show (seqLoop A B budget (supervisor_router reply (initState query))).2.1.current_analyst_idx
        ≤ budget
    omega
  · intro A B reply query budget
    have := seqLoop_len_le A B budget (supervisor_router reply (initState query))
    show (initState query
        :: (seqLoop A B budget (supervisor_router reply (initState query))).1).length
        ≤ budget + 3
    rw [List.length_cons]
    omega

/-! ## Data tools (tools.py) -/

/-- VALID_RANGES of tools.py. -/
def VALID_RANGES : List String :=
  ["1d", "5d", "1mo", "3mo", "6mo", "1y", "2y", "5y", "10y", "ytd", "max"]

/-- VALID_INTERVALS of tools.py. -/
def VALID_INTERVALS : List String :=
  ["1m", "2m", "5m", "15m", "30m", "60m", "90m", "1h", "1d", "5d", "1wk", "1mo", "3mo"]

/-- validate_range of tools.py: an invalid range falls back to the
default 1mo. -/
def validate_range (range_value : String) : String :=
  if ¬ range_value ∈ VALID_RANGES then "1mo" else range_value

/-- validate_interval of tools.py: an invalid interval falls back to
the default 1d. -/
def validate_interval (interval : String) : String :=
  if ¬ interval ∈ VALID_INTERVALS then "1d" else interval

/-- C9: validate_range returns its input unchanged on members of
VALID_RANGES and 1mo otherwise, validate_interval returns its input
unchanged on members of VALID_INTERVALS and 1d otherwise, so both
always land in their valid set and are idempotent. -/
theorem C9_validate_range_interval (s : String) :
    (s ∈ VALID_RANGES → validate_range s = s) ∧
    (¬ s ∈ VALID_RANGES → validate_range s = "1mo") ∧
    validate_range s ∈ VALID_RANGES ∧
    validate_range (validate_range s) = validate_range s ∧
    (s ∈ VALID_INTERVALS → validate_interval s = s) ∧
    (¬ s ∈ VALID_INTERVALS → validate_interval s = "1d") ∧
    validate_interval s ∈ VALID_INTERVALS ∧
    validate_interval (validate_interval s) = validate_interval s := by
  unfold validate_range validate_interval
  by_cases hr : s ∈ VALID_RANGES <;> by_cases hi : s ∈ VALID_INTERVALS <;>
    simp [hr, hi] <;> decide

/-- C9 witness: concrete valid and invalid inputs for both validators. -/
theorem C9_witness :
    validate_range "1y" = "1y" ∧ validate_range "zzz" = "1mo" ∧
    validate_interval "1h" = "1h" ∧ validate_interval "zzz" = "1d" :=
  ⟨(C9_validate_range_interval "1y").1 (by decide),
   (C9_validate_range_interval "zzz").2.1 (by decide),
   (C9_validate_range_interval "1h").2.2.2.2.1 (by decide),
   (C9_validate_range_interval "zzz").2.2.2.2.2.1 (by decide)⟩

/-! ## JSON values and Python dictionary semantics, for the BRAPI
response handling of tools.py -/

/-- A JSON value as the Python json module produces it (floats are
modelled as integers; nothing in the embedded control flow inspects
numeric magnitudes). -/
inductive Json where
  | null : Json
  | bool (b : Bool) : Json
  | num (n : Int) : Json
  | str (s : String) : Json
  | arr (items : List Json) : Json
  | obj (fields : List (String × Json)) : Json

/-- Python truthiness of a JSON value: None, False, 0, the empty
string, the empty list and the empty dict are falsy. -/
def pyTruthy : Json → Bool
  | Json.null => false
  | Json.bool b => b
  | Json.num n => n != 0
  | Json.str s => s != ""
  | Json.arr items => !items.isEmpty
  | Json.obj fields => !fields.isEmpty

/-- Substring test on strings, for the Python expression key in s when
s is a string. -/
def strHasSub (s pat : String) : Bool :=
  if pat = "" then true else (s.splitOn pat).length != 1

/-- The Python expression key in j: keys of a dict, values of a list,
substring of a string; any other type raises TypeError, modelled as
none. -/
def pyContains (j : Json) (key : String) : Option Bool :=
  match j with
  | Json.obj fields => some (fields.any (fun kv => kv.1 == key))
  | Json.arr items =>
    some (items.any (fun it => match it with | Json.str s => s == key | _ => false))
  | Json.str s => some (strHasSub s key)
  | _ => none

/-- The Python expression j[key] with a string key: dict lookup
(KeyError when absent); any other type raises, modelled as an error. -/
def pyGet (j : Json) (key : String) : Except Unit Json :=
  match j with
  | Json.obj fields =>
    match fields.find? (fun kv => kv.1 == key) with
    | some kv => Except.ok kv.2
    | none => Except.error ()
  | _ => Except.error ()

/-- The Python expression j.get(key, dflt) on a dict; any other
receiver raises AttributeError, modelled as an error. -/
def pyGetD (j : Json) (key : String) (dflt : Json) : Except Unit Json :=
  match j with
  | Json.obj fields =>
    match fields.find? (fun kv => kv.1 == key) with
    | some kv => Except.ok kv.2
    | none => Except.ok dflt
  | _ => Except.error ()

/-- The Python expression j[0]: first element of a list (IndexError on
empty), one-character string of a string; any other type raises. -/
def pyIndexZero (j : Json) : Except Unit Json :=
  match j with
  | Json.arr (x :: _) => Except.ok x
  | Json.arr [] => Except.error ()
  | Json.str s => if s = "" then Except.error () else Except.ok (Json.str (s.take 1))
  | _ => Except.error ()

/-- Python dict assignment d[key] = v: replace the value of an existing
key in place, otherwise append the new binding. -/
def dictSet (fields : List (String × Json)) (key : String) (v : Json) :
    List (String × Json) :=
  if fields.any (fun kv => kv.1 == key) then
    fields.map (fun kv => if kv.1 == key then (kv.1, v) else kv)
  else fields ++ [(key, v)]

/-- Dict assignment lifted to a JSON value (a non-dict receiver
raises). -/
def jsonDictSet (j : Json) (key : String) (v : Json) : Except Unit Json :=
  match j with
  | Json.obj fields => Except.ok (Json.obj (dictSet fields key v))
  | _ => Except.error ()

/-- Lift an optional value into the exception monad: none is a raised
Python exception. -/
def liftOp : Option α → Except Unit α
  | some a => Except.ok a
  | none => Except.error ()

/-- An HTTP response as the requests library delivers it: the status
code, and the parsed JSON body (none when response.json() raises
JSONDecodeError). -/
structure HttpResp where
  status : Nat
  body : Option Json

/-- The per-result module rewriting of handle_brapi_response (tools.py
lines 223-245): when the expected module key is present, unwrap the
nested balanceSheetStatements or incomeStatementHistory list, or wrap a
flat dict in a singleton list; the financialData and
defaultKeyStatistics assignment is the identity. -/
def module_fixup (em : String) (result : Json) : Except Unit Json := do
  let present ← liftOp (pyContains result em)
  if present then
    let module_data ← pyGet result em
    match module_data with
    | Json.obj _ =>
      if em == "balanceSheetHistory" || em == "balanceSheetHistoryQuarterly" then do
        let hasStmts ← liftOp (pyContains module_data "balanceSheetStatements")
        if hasStmts then do
          let stmts ← pyGet module_data "balanceSheetStatements"
          jsonDictSet result em stmts
        else jsonDictSet result em (Json.arr [module_data])
      else if em == "incomeStatementHistory" || em == "incomeStatementHistoryQuarterly" then do
        let hasHist ← liftOp (pyContains module_data "incomeStatementHistory")
        if hasHist then do
          let hist ← pyGet module_data "incomeStatementHistory"
          jsonDictSet result em hist
        else jsonDictSet result em (Json.arr [module_data])
      else if em == "financialData" || em == "defaultKeyStatistics" then
        jsonDictSet result em module_data
      else pure result
    | _ => pure result
  else pure result

/-- The body processing of handle_brapi_response after the status
checks (tools.py lines 196-251): a list body is wrapped as results, a
body carrying an inflation or prime-rate key is returned as is, a body
without results is rejected, falsy results return the body unchanged, a
dict result is wrapped in a list, a non-list result is rejected, then
the optional module rewriting runs and the normalized dict is
returned. -/
def handle_body (resp : HttpResp) (em : Option String) : Except Unit (Option Json) := do
  let data ← liftOp resp.body
  match data with
  | Json.arr _ => pure (some (Json.obj [("results", data)]))
  | _ => do
    let hasInfl ← liftOp (pyContains data "inflation")
    if hasInfl then pure (some data)
    else do
      let hasPrime ← liftOp (pyContains data "prime-rate")
      if hasPrime then pure (some data)
      else do
        let hasResults ← liftOp (pyContains data "results")
        if !hasResults then pure none
        else do
          let results ← pyGet data "results"
          if !(pyTruthy results) then pure (some data)
          else do
            let resultsList ← (match results with
              | Json.obj _ => pure (some [results])
              | Json.arr items => pure (some items)
              | _ => pure none)
            match resultsList with
            | none => pure none
            | some items => do
              let items' ← (match em with
                | some m => if m = "" then pure items else items.mapM (module_fixup m)
                | none => pure items)
              let requestedAt ← pyGetD data "requestedAt" (Json.str "")
              let took ← pyGetD data "took" (Json.str "")
              pure (some (Json.obj
                [("results", Json.arr items'), ("requestedAt", requestedAt),
                 ("took", took)]))

/-- The status-code dispatch of handle_brapi_response (tools.py lines
187-194): a 400 response whose body carries a message key is rejected
(a 400 body without one falls through to normal processing, as the
missing else branch of the source does), any other non-200 status is
rejected. -/
def handle_inner (resp : HttpResp) (em : Option String) : Except Unit (Option Json) := do
  if resp.status == 400 then do
    let error_data ← liftOp resp.body
    let hasMsg ← liftOp (pyContains error_data "message")
    if hasMsg then pure none
    else handle_body resp em
  else if resp.status != 200 then pure none
  else handle_body resp em

/-- handle_brapi_response of tools.py: the surrounding try block turns
every raised exception into None. -/
def handle_brapi_response (resp : HttpResp) (em : Option String) : Option Json :=
  match handle_inner resp em with
  | Except.ok v => v
  | Except.error _ => none

/-- The environment of the data tools: the BRAPI_TOKEN from the
process environment (none when unset) and the HTTP collaborator
(requests.get by url and query parameters; none when the request
raises). -/
structure Env where
  token : Option String
  http : String → List (String × String) → Option HttpResp

/-- The base url of tools.py. -/
def BASE_URL : String := "https://brapi.dev/api"

/-- The per-ticker body of the statement-history tools: fetch the
quote endpoint for one ticker with the module in the query parameters,
run handle_brapi_response (with the module as expected module for the
balance-sheet variants, as in the source), then keep
results[0][moduleKey] when data and results are truthy and the module
key is present (and, for the balance-sheet variants, only when that
value is a list); a raised request is an error, a skipped ticker is
none. -/
def quote_module_fetch (env : Env) (key range ticker moduleName : String)
    (useEm requireList : Bool) : Except Unit (Option Json) := do
  match env.http (BASE_URL ++ "/quote/" ++ ticker)
      [("token", key), ("range", range), ("fundamental", "true"),
       ("modules", moduleName)] with
  | none => Except.error ()
  | some resp => do
    let data := handle_brapi_response resp (if useEm then some moduleName else none)
    match data with
    | none => pure none
    | some d =>
      if !(pyTruthy d) then pure none
      else do
        let hasRes ← liftOp (pyContains d "results")
        if !hasRes then pure none
        else do
          let results ← pyGet d "results"
          if !(pyTruthy results) then pure none
          else do
            let first ← pyIndexZero results
            let hasMod ← liftOp (pyContains first moduleName)
            if !hasMod then pure none
            else do
              let v ← pyGet first moduleName
              if requireList then
                match v with
                | Json.arr _ => pure (some v)
                | _ => pure none
              else pure (some v)

/-- One iteration of the results-building loop of the
statement-history tools: a found entry is assigned into the results
dict, a skipped ticker leaves it unchanged, a raised request aborts. -/
def tool_step (env : Env) (key range moduleName : String) (useEm requireList : Bool)
    (acc : List (String × Json)) (ticker : String) :
    Except Unit (List (String × Json)) := do
  let entry ← quote_module_fetch env key range ticker moduleName useEm requireList
  match entry with
  | some v => pure (dictSet acc ticker v)
  | none => pure acc

/-- The raising part of a statement-history tool: a falsy token raises
at once (the if not API_KEY check of tools.py, covering both an unset
and an empty BRAPI_TOKEN), then the loop builds the results dict over
the tickers with the validated range. -/
def tool_body (env : Env) (tickers : List String) (range moduleName : String)
    (useEm requireList : Bool) : Except Unit (List (String × Json)) :=
  match env.token with
  | none => Except.error ()
  | some key =>
    if key = "" then Except.error ()
    else
      tickers.foldlM (tool_step env key (validate_range range) moduleName useEm requireList) []

/-- The shared driver of the four statement-history tools of tools.py:
the surrounding try block turns any raised exception into None, each
ticker contributes an entry to the results dict exactly when its data
was found, and an empty results dict is returned as None. -/
def statement_tool (env : Env) (tickers : List String) (range moduleName : String)
    (useEm requireList : Bool) : Option (List (String × Json)) :=
  match tool_body env tickers range moduleName useEm requireList with
  | Except.error _ => none
  | Except.ok results => if results.isEmpty then none else some results

/-- get_income_statements of tools.py. -/
def get_income_statements (env : Env) (tickers : List String) (range : String) :
    Option (List (String × Json)) :=
  statement_tool env tickers range "incomeStatementHistory" false false

/-- get_income_statement_history_quarterly of tools.py. -/
def get_income_statement_history_quarterly (env : Env) (tickers : List String)
    (range : String) : Option (List (String × Json)) :=
  statement_tool env tickers range "incomeStatementHistoryQuarterly" false false

/-- get_balance_sheet_history of tools.py. -/
def get_balance_sheet_history (env : Env) (tickers : List String) (range : String) :
    Option (List (String × Json)) :=
  statement_tool env tickers range "balanceSheetHistory" true true

/-- get_balance_sheet_history_quarterly of tools.py. -/
def get_balance_sheet_history_quarterly (env : Env) (tickers : List String)
    (range : String) : Option (List (String × Json)) :=
  statement_tool env tickers range "balanceSheetHistoryQuarterly" true true

/-! ## Lemmas about the statement-history tools -/

/-- A missing token makes every statement tool return None. -/
lemma statement_tool_token_none (env : Env) (tickers : List String)
    (range m : String) (u r : Bool) (h : env.token = none) :
    statement_tool env tickers range m u r = none := by
  unfold statement_tool tool_body
  simp only [h]

/-- The property carried by every entry of the results dict. -/
def entryFound (env : Env) (key range m : String) (u r : Bool)
    (tickers : List String) (kv : String × Json) : Prop :=
  kv.1 ∈ tickers ∧
  quote_module_fetch env key range kv.1 m u r = Except.ok (some kv.2)

/-- Dict assignment preserves a pointwise property when the new
binding satisfies it. -/
lemma dictSet_forall {P : String × Json → Prop} (acc : List (String × Json))
    (t : String) (v : Json) (hacc : ∀ kv ∈ acc, P kv) (hnew : P (t, v)) :
    ∀ kv ∈ dictSet acc t v, P kv := by
  intro kv hkv
  unfold dictSet at hkv
  by_cases hc : acc.any (fun kv => kv.1 == t) = true
  · rw [if_pos hc] at hkv
    rcases List.mem_map.mp hkv with ⟨kv0, hkv0, heq⟩
    split at heq
    · rename_i hbeq
      have : kv0.1 = t := by simpa using hbeq
      rw [← heq, this]
      exact hnew
    · rw [← heq]
      exact hacc kv0 hkv0
  · rw [if_neg hc] at hkv
    rcases List.mem_append.mp hkv with hkv | hkv
    · exact hacc kv hkv
    · rw [List.mem_singleton.mp hkv]
      exact hnew

/-- Every entry of a successfully built results dict comes from a
ticker of the processed list whose data was found. -/
lemma tool_fold_found (env : Env) (key range m : String) (u r : Bool)
    (tickers : List String) :
    ∀ (ts : List String), (∀ t ∈ ts, t ∈ tickers) →
      ∀ (acc res : List (String × Json)),
        (∀ kv ∈ acc, entryFound env key range m u r tickers kv) →
        List.foldlM (tool_step env key range m u r) acc ts = Except.ok res →
        ∀ kv ∈ res, entryFound env key range m u r tickers kv := by
  intro ts
  induction ts with
  | nil =>
    intro _ acc res hacc hf
    rw [List.foldlM_nil] at hf
    cases hf
    exact hacc
  | cons t ts ih =>
    intro hsub acc res hacc hf
    rw [List.foldlM_cons] at hf
    unfold tool_step at hf
    cases hq : quote_module_fetch env key range t m u r with
    | error e =>
      rw [hq] at hf
      exact Except.noConfusion hf
    | ok entry =>
      rw [hq] at hf
      cases entry with
      | none =>
        refine ih (fun x hx => hsub x (List.mem_cons_of_mem t hx)) acc res hacc ?_
        exact hf
      | some v =>
        refine ih (fun x hx => hsub x (List.mem_cons_of_mem t hx)) (dictSet acc t v) res
          ?_ hf
        exact dictSet_forall acc t v hacc
          ⟨hsub t (List.mem_cons_self t ts), hq⟩

/-- A non-None result of a statement tool is a non-empty dict whose
every entry belongs to a requested ticker whose data was found. -/
lemma statement_tool_some_spec (env : Env) (tickers : List String)
    (range m : String) (u r : Bool) (d : List (String × Json))
    (h : statement_tool env tickers range m u r = some d) :
    d ≠ [] ∧ ∀ kv ∈ d, kv.1 ∈ tickers ∧ ∃ key, env.token = some key ∧
      quote_module_fetch env key (validate_range range) kv.1 m u r
        = Except.ok (some kv.2) := by
  unfold statement_tool tool_body at h
  cases htok : env.token with
  | none =>
    simp only [htok] at h
    exact Option.noConfusion h
  | some key =>
    simp only [htok] at h
    by_cases hk : key = ""
    · rw [if_pos hk] at h
      exact absurd h (by simp)
    · rw [if_neg hk] at h
      cases hfold : tickers.foldlM
          (tool_step env key (validate_range range) m u r) [] with
      | error e =>
        simp only [hfold] at h
        exact Option.noConfusion h
      | ok res =>
        simp only [hfold] at h
        by_cases hres : res.isEmpty
        · rw [if_pos hres] at h
          exact absurd h (by simp)
        · rw [if_neg hres] at h
          have hd : res = d := by simpa using h
          subst hd
          refine ⟨by simpa [List.isEmpty_iff] using hres, ?_⟩
          intro kv hkv
          have := tool_fold_found env key (validate_range range) m u r tickers
            tickers (fun x hx => hx) [] res (by simp) hfold kv hkv
          exact ⟨this.1, key, rfl, this.2⟩

/-- When every HTTP request comes back with status 500, the per-ticker
fetch finds nothing. -/
lemma quote_module_fetch_fail (env : Env) (key range t m : String) (u r : Bool)
    (h : ∀ url ps, env.http url ps = some ⟨500, some Json.null⟩) :
    quote_module_fetch env key range t m u r = Except.ok none := by
  unfold quote_module_fetch
  rw [h]
  rfl

/-- When every HTTP request comes back with status 500, the
results-building loop keeps the dict unchanged. -/
lemma tool_fold_fail (env : Env) (key range m : String) (u r : Bool)
    (h : ∀ url ps, env.http url ps = some ⟨500, some Json.null⟩) :
    ∀ (ts : List String) (acc : List (String × Json)),
      List.foldlM (tool_step env key range m u r) acc ts = Except.ok acc := by
  intro ts
  induction ts with
  | nil => intro acc; rw [List.foldlM_nil]; rfl
  | cons t ts ih =>
    intro acc
    rw [List.foldlM_cons]
    unfold tool_step
    rw [quote_module_fetch_fail env key range t m u r h]
    exact ih acc

/-- When every HTTP request fails, every statement tool returns
None. -/
lemma statement_tool_http_fail (env : Env) (tickers : List String)
    (range m : String) (u r : Bool)
    (h : ∀ url ps, env.http url ps = some ⟨500, some Json.null⟩) :
    statement_tool env tickers range m u r = none := by
  unfold statement_tool tool_body
  cases htok : env.token with
  | none => simp only [htok]
  | some key =>
    simp only [htok]
    by_cases hk : key = ""
    · rw [if_pos hk]
    · rw [if_neg hk]
      rw [tool_fold_fail env key (validate_range range) m u r h tickers []]
      rfl

/-! ## Claim C10 -/

/-- C10: for every environment (token present or missing, every
possible HTTP behaviour including raised requests, failed statuses,
malformed bodies and empty data), each of the four statement-history
capability functions is a total function into Option: a missing API
token yields None, an all-failing HTTP collaborator yields None, and a
non-None result is a non-empty dict whose every entry belongs to a
requested ticker whose data was found by the per-ticker fetch. -/
theorem C10_statement_tools_total (env : Env) (tickers : List String) (range : String) :
    ((env.token = none → get_income_statements env tickers range = none) ∧
     (∀ d, get_income_statements env tickers range = some d →
        d ≠ [] ∧ ∀ kv ∈ d, kv.1 ∈ tickers ∧ ∃ key, env.token = some key ∧
          quote_module_fetch env key (validate_range range) kv.1
            "incomeStatementHistory" false false = Except.ok (some kv.2)) ∧
     ((∀ url ps, env.http url ps = some ⟨500, some Json.null⟩) →
        get_income_statements env tickers range = none)) ∧
    ((env.token = none → get_income_statement_history_quarterly env tickers range = none) ∧
     (∀ d, get_income_statement_history_quarterly env tickers range = some d →
        d ≠ [] ∧ ∀ kv ∈ d, kv.1 ∈ tickers ∧ ∃ key, env.token = some key ∧
          quote_module_fetch env key (validate_range range) kv.1
            "incomeStatementHistoryQuarterly" false false = Except.ok (some kv.2)) ∧
     ((∀ url ps, env.http url ps = some ⟨500, some Json.null⟩) →
        get_income_statement_history_quarterly env tickers range = none)) ∧
    ((env.token = none → get_balance_sheet_history env tickers range = none) ∧
     (∀ d, get_balance_sheet_history env tickers range = some d →
        d ≠ [] ∧ ∀ kv ∈ d, kv.1 ∈ tickers ∧ ∃ key, env.token = some key ∧
          quote_module_fetch env key (validate_range range) kv.1
            "balanceSheetHistory" true true = Except.ok (some kv.2)) ∧
     ((∀ url ps, env.http url ps = some ⟨500, some Json.null⟩) →
        get_balance_sheet_history env tickers range = none)) ∧
    ((env.token = none → get_balance_sheet_history_quarterly env tickers range = none) ∧
     (∀ d, get_balance_sheet_history_quarterly env tickers range = some d →
        d ≠ [] ∧ ∀ kv ∈ d, kv.1 ∈ tickers ∧ ∃ key, env.token = some key ∧
          quote_module_fetch env key (validate_range range) kv.1
            "balanceSheetHistoryQuarterly" true true = Except.ok (some kv.2)) ∧
     ((∀ url ps, env.http url ps = some ⟨500, some Json.null⟩) →
        get_balance_sheet_history_quarterly env tickers range = none)) :=
  ⟨⟨fun h => statement_tool_token_none env tickers range _ _ _ h,
    fun d h => statement_tool_some_spec env tickers range _ _ _ d h,
    fun h => statement_tool_http_fail env tickers range _ _ _ h⟩,
   ⟨fun h => statement_tool_token_none env tickers range _ _ _ h,
    fun d h => statement_tool_some_spec env tickers range _ _ _ d h,
    fun h => statement_tool_http_fail env tickers range _ _ _ h⟩,
   ⟨fun h => statement_tool_token_none env tickers range _ _ _ h,
    fun d h => statement_tool_some_spec env tickers range _ _ _ d h,
    fun h => statement_tool_http_fail env tickers range _ _ _ h⟩,
   ⟨fun h => statement_tool_token_none env tickers range _ _ _ h,
    fun d h => statement_tool_some_spec env tickers range _ _ _ d h,
    fun h => statement_tool_http_fail env tickers range _ _ _ h⟩⟩

/-- An environment with no BRAPI token. -/
def envNoToken : Env := { token := none, http := fun _ _ => none }

/-- An environment whose every request fails with status 500. -/
def envHttpFail : Env := { token := some "tok", http := fun _ _ => some ⟨500, some Json.null⟩ }

/-- The statement list served by the sample environments. -/
def sampleStatements : Json := Json.arr [Json.obj [("endDate", Json.str "2023-12-31")]]

/-- An environment serving one income-statement result. -/
def envIncome : Env :=
  { token := some "tok"
    http := fun _ _ => some ⟨200, some (Json.obj
      [("results", Json.arr
        [Json.obj [("incomeStatementHistory", sampleStatements)]])])⟩ }

/-- An environment serving one nested balance-sheet result. -/
def envBalance : Env :=
  { token := some "tok"
    http := fun _ _ => some ⟨200, some (Json.obj
      [("results", Json.arr
        [Json.obj [("balanceSheetHistory",
          Json.obj [("balanceSheetStatements", sampleStatements)])]])])⟩ }

/-- C10 witness: concrete environments exercising the hypotheses — a
missing token yields None, all-failing HTTP yields None, and successful
fetches return dictionaries keyed by the requested ticker. -/
theorem C10_witness :
    get_income_statements envNoToken ["PETR4"] "5y" = none ∧
    get_income_statements envHttpFail ["PETR4"] "5y" = none ∧
    get_income_statements envIncome ["PETR4"] "5y" = some [("PETR4", sampleStatements)] ∧
    "PETR4" ∈ ["PETR4"] ∧
    get_balance_sheet_history envBalance ["PETR4"] "5y"
        = some [("PETR4", sampleStatements)] ∧
    [("PETR4", sampleStatements)] ≠ ([] : List (String × Json)) :=
  ⟨(C10_statement_tools_total envNoToken ["PETR4"] "5y").1.1 rfl,
   (C10_statement_tools_total envHttpFail ["PETR4"] "5y").1.2.2 (fun _ _ => rfl),
   rfl,
   (((C10_statement_tools_total envIncome ["PETR4"] "5y").1.2.1
      [("PETR4", sampleStatements)] rfl).2 ("PETR4", sampleStatements)
      (List.mem_singleton.mpr rfl)).1,
   rfl,
   ((C10_statement_tools_total envBalance ["PETR4"] "5y").2.2.1.2.1
      [("PETR4", sampleStatements)] rfl).1⟩

end HedgeFund

